import Mathlib

/-
  Verification of the task execution engine of the Bottleneck-Bots repository
  (src/server/services/taskExecution.service.ts), together with the
  retry/circuit-breaker resilience layer described in the specification.

  The service is embedded shallowly: the persistent store (drizzle tables
  agencyTasks, taskExecutions, outboundMessages, userWebhooks) becomes an
  explicit state record `St`, and every external collaborator (browser
  driver, HTTP client, clock) is an oracle inside an environment `Env`.
  Machine integers of the source are JavaScript numbers used only as ids,
  counters and millisecond timestamps, so they are modelled as `Nat`.
-/

namespace BottleneckBots

/-- Task lifecycle status (column agencyTasks.status). -/
inductive TaskStatus
  | pending | queued | inProgress | completed | failed | cancelled
deriving DecidableEq

/-- Task type discriminator (column agencyTasks.taskType); selects the
handler strategy in `executeTask`. -/
inductive TaskType
  | browserAutomation | apiCall | ghlAction | notificationTask
  | reminder | dataExtraction | reportGeneration | custom
deriving DecidableEq

/-- String name of a task type, as stored in the database column. -/
def TaskType.name : TaskType → String
  | .browserAutomation => "browser_automation"
  | .apiCall => "api_call"
  | .ghlAction => "ghl_action"
  | .notificationTask => "notification"
  | .reminder => "reminder"
  | .dataExtraction => "data_extraction"
  | .reportGeneration => "report_generation"
  | .custom => "custom"

/-- One automation step of executionConfig.automationSteps /
browserActions.  The source reads `(step as any).screenshot` and
`(step as any).continueOnError` as loose boolean flags; the per-step
payload (url, selector, instruction, ...) is consumed only by the external
page/stagehand driver, so it stays opaque here. -/
structure AutomationStep where
  stepType : String
  screenshot : Bool := false
  continueOnError : Bool := false
deriving DecidableEq

/-- Entry pushed onto the `results` array of the browser-automation loop:
either the value returned by executeAutomationStep or the
`{ error: ... }` record pushed for a caught step error. -/
inductive StepEntry
  | ok (result : String)
  | err (error : String)
deriving DecidableEq

/-- The loosely-typed executionConfig document.  Each field is optional,
mirroring the untyped JSON column whose required shape depends on
taskType. -/
structure ExecConfig where
  automationSteps : Option (List AutomationStep) := none
  browserActions : Option (List AutomationStep) := none
  apiEndpoint : Option String := none
  apiMethod : Option String := none
  timeout : Option Nat := none
  ghlAction : Option String := none
  reminderTime : Option Nat := none
  reminderMessage : Option String := none
  recipient : Option String := none
  reportType : Option String := none
  sendReportAsMessage : Bool := false
  startDate : Option Nat := none
  endDate : Option Nat := none
deriving DecidableEq

/-- Structured handler output (the `output: any` of ExecutionResult),
flattened into the optional fields the service actually writes. -/
structure Output where
  message : Option String := none
  steps : Option (List StepEntry) := none
  sessionId : Option String := none
  outTaskId : Option Nat := none
  scheduledFor : Option Nat := none
  reminderMessage : Option String := none
  data : Option String := none
  ghlActionName : Option String := none
  webhookId : Option Nat := none
  recipient : Option String := none
  reportType : Option String := none
deriving DecidableEq

/-- The ExecutionResult interface returned by every handler and by
executeTask itself. -/
structure ExecutionResult where
  success : Bool
  output : Option Output := none
  error : Option String := none
  duration : Option Nat := none
  screenshots : Option (List String) := none
deriving DecidableEq

/-- A row of agencyTasks.  Nullable columns are `Option`s; timestamps are
milliseconds as `Nat`. -/
structure Task where
  id : Nat
  userId : Nat
  title : String
  description : Option String := none
  taskType : TaskType
  status : TaskStatus
  executionConfig : Option ExecConfig := none
  errorCount : Option Nat := none
  maxRetries : Option Nat := none
  lastError : Option String := none
  statusReason : Option String := none
  assignedToBot : Bool := false
  requiresHumanReview : Bool := false
  humanReviewedBy : Option Nat := none
  notifyOnComplete : Bool := false
  notifyOnFailure : Bool := false
  scheduledFor : Option Nat := none
  startedAt : Option Nat := none
  completedAt : Option Nat := none
  updatedAt : Option Nat := none
  sourceWebhookId : Option Nat := none
  conversationId : Option Nat := none
  result : Option Output := none
  resultSummary : Option String := none
  createdAt : Nat := 0
deriving DecidableEq

/-- Status of a taskExecutions row. -/
inductive ExecStatus
  | running | success | failed
deriving DecidableEq

/-- A row of taskExecutions. -/
structure TaskExecution where
  id : Nat
  taskId : Nat
  triggeredBy : String
  status : ExecStatus
  attemptNumber : Nat
  output : Option Output := none
  error : Option String := none
  duration : Option Nat := none
  screenshots : Option (List String) := none
  browserSessionId : Option String := none
  debugUrl : Option String := none
  completedAt : Option Nat := none
deriving DecidableEq

/-- A row of userWebhooks (only the fields the executor reads). -/
structure Webhook where
  id : Nat
  outboundEnabled : Bool
deriving DecidableEq

/-- A row of outboundMessages, as inserted by the executor. -/
structure OutboundMessage where
  webhookId : Nat
  userId : Nat
  msgTaskId : Option Nat := none
  conversationId : Option Nat := none
  messageType : String
  content : String
  recipientIdentifier : String
  deliveryStatus : String
  scheduledFor : Option Nat := none
deriving DecidableEq

/-- A row of inboundMessages (read only by the webhook_activity report). -/
structure InboundMessage where
  webhookId : Nat
  userId : Nat
deriving DecidableEq

/-- The persistent store plus the observable browser-session resource
counters.  `nextExecId` models the autoincrement id of taskExecutions;
`sessionsCreated` / `sessionsClosed` count browserbase session creations
and stagehand.close() calls, the resource whose leak/teardown behaviour
the specification constrains. -/
structure St where
  tasks : List Task
  executions : List TaskExecution
  outbound : List OutboundMessage
  webhooks : List Webhook
  inbound : List InboundMessage := []
  nextExecId : Nat
  sessionsCreated : Nat := 0
  sessionsClosed : Nat := 0
deriving DecidableEq

/-- Outcome of a fetch() call as observed by the service: a response, an
AbortError from the timeout controller, or another rejection. -/
inductive FetchOutcome
  | resp (status : Nat) (statusText : String) (body : String)
  | aborted
  | netError (msg : String)
deriving DecidableEq

/-- The external world: clock, URL parser, browser driver, HTTP client and
credentials.  Every await of an external collaborator in the source is an
oracle here; oracles returning `Except String` model JavaScript calls that
may reject, the rejection carrying the error message.
`dispatchFault` injects a rejection thrown by the dispatched handler
itself (JavaScript lets any awaited call throw; the translated handlers
below catch all their internal errors, so such a throw corresponds to the
programming errors the top-level catch of executeTask guards against). -/
structure Env where
  now : Nat
  durationMs : Nat
  validUrl : String → Bool
  createSession : Except String String
  getSessionDebug : Except String String
  stagehandInit : Except String Unit
  runStep : Nat → AutomationStep → Except String String
  takeScreenshot : Nat → Except String String
  fetchApi : FetchOutcome
  fetchGhl : FetchOutcome
  ghlApiKey : Option String := none
  dispatchFault : Option String := none

/-- JavaScript `x || d` on a nullable number: null and 0 both fall through
to the default. -/
def jsOrNat (o : Option Nat) (d : Nat) : Nat :=
  match o with
  | some n => if n = 0 then d else n
  | none => d

/-- Task types subject to the leading "requires execution configuration"
check of validateTaskConfig (note: data_extraction and reminder are not in
this list in the source). -/
def requiresConfigTypes : List TaskType :=
  [.browserAutomation, .apiCall, .ghlAction, .reportGeneration]

/-- validateTaskConfig: returns `some errorMessage` when invalid, `none`
when valid, mirroring the `{ valid, error? }` record of the source. -/
def validateTaskConfig (env : Env) (task : Task) : Option String :=
  if task.taskType ∈ requiresConfigTypes ∧ task.executionConfig = none then
    let typeName := task.taskType.name
    some s!"Task type {typeName} requires execution configuration"
  else
    match task.taskType with
    | .browserAutomation | .dataExtraction =>
      if task.executionConfig.bind (fun c => c.browserActions) = none ∧
         task.executionConfig.bind (fun c => c.automationSteps) = none then
        some "Browser automation requires browserActions or automationSteps"
      else none
    | .apiCall =>
      match task.executionConfig.bind (fun c => c.apiEndpoint) with
      | none => some "API call requires apiEndpoint"
      | some url => if env.validUrl url then none else some "Invalid API endpoint URL"
    | .ghlAction =>
      if task.executionConfig.bind (fun c => c.ghlAction) = none then
        some "GHL action requires ghlAction type"
      else none
    | .reminder =>
      if task.executionConfig.bind (fun c => c.reminderTime) = none then
        some "Reminder requires reminderTime"
      else none
    | .reportGeneration =>
      if task.executionConfig.bind (fun c => c.reportType) = none then
        some "Report generation requires reportType"
      else none
    | _ => none

-- ========================================
-- STORE PRIMITIVES
-- ========================================

/-- db.select().from(agencyTasks).where(eq(agencyTasks.id, taskId)).limit(1). -/
def findTask (st : St) (taskId : Nat) : Option Task :=
  st.tasks.find? (fun t => decide (t.id = taskId))

/-- db.update(agencyTasks).set(...).where(eq(agencyTasks.id, taskId)):
apply the column update `f` to every row whose id matches. -/
def updateTaskRow (st : St) (taskId : Nat) (f : Task → Task) : St :=
  { st with tasks := st.tasks.map (fun t => if t.id = taskId then f t else t) }

/-- Pointwise row update used by updateExecRow. -/
def updAt (execId : Nat) (f : TaskExecution → TaskExecution) (e : TaskExecution) : TaskExecution :=
  if e.id = execId then f e else e

/-- db.update(taskExecutions).set(...).where(eq(taskExecutions.id, id)). -/
def updateExecRow (st : St) (execId : Nat) (f : TaskExecution → TaskExecution) : St :=
  { st with executions := st.executions.map (updAt execId f) }

/-- db.insert(outboundMessages).values(...). -/
def insertOutbound (st : St) (m : OutboundMessage) : St :=
  { st with outbound := st.outbound ++ [m] }

-- ========================================
-- AUXILIARY SERVICE METHODS
-- ========================================

/-- sendNotification: best-effort outbound message about a terminal task
status; silently returns when the task has no source webhook, the webhook
row is missing, or outbound delivery is disabled. -/
def sendNotification (task : Task) (status : String) (result : ExecutionResult) (st : St) : St :=
  match task.sourceWebhookId with
  | none => st
  | some wid =>
    match st.webhooks.find? (fun w => decide (w.id = wid)) with
    | none => st
    | some webhook =>
      if webhook.outboundEnabled then
        let ttl := task.title
        let resMsg := (result.output.bind (fun o => o.message)).getD "Success"
        let errMsg := result.error.getD "undefined"
        let message :=
          if status = "completed" then s!"Task completed: {ttl}\n\nResult: {resMsg}"
          else s!"Task failed: {ttl}\n\nError: {errMsg}"
        insertOutbound st
          { webhookId := webhook.id, userId := task.userId, msgTaskId := some task.id,
            conversationId := task.conversationId, messageType := "task_update",
            content := message, recipientIdentifier := "owner", deliveryStatus := "pending" }
      else st

/-- generateResultSummary. -/
def generateResultSummary (result : ExecutionResult) : String :=
  if !result.success then
    let e := result.error.getD "undefined"
    s!"Failed: {e}"
  else
    match result.output.bind (fun o => o.message) with
    | some m => m
    | none =>
      match result.output.bind (fun o => o.steps) with
      | some steps =>
        let n := steps.length
        s!"Completed {n} automation steps"
      | none => "Task completed successfully"

-- ========================================
-- TYPE-SPECIFIC HANDLERS
-- ========================================

/-- The for-loop over automation steps.  Per step: run it through the
driver; on success push the step result and, when the step is flagged
`screenshot`, capture a screenshot — both inside the same try, so a
screenshot rejection is caught as the step's error; on a caught error,
rethrow unless `continueOnError` is set, in which case an error entry is
pushed and the loop continues.  `k` is the step index used to address the
driver oracles. -/
def runSteps (env : Env) (k : Nat) (steps : List AutomationStep)
    (results : List StepEntry) (shots : List String) :
    Except String (List StepEntry × List String) :=
  match steps with
  | [] => .ok (results, shots)
  | s :: rest =>
    match env.runStep k s with
    | .ok r =>
      if s.screenshot then
        match env.takeScreenshot k with
        | .ok p => runSteps env (k + 1) rest (results ++ [.ok r]) (shots ++ [p])
        | .error e =>
          if s.continueOnError then
            runSteps env (k + 1) rest (results ++ [.ok r, .err e]) shots
          else .error e
      else runSteps env (k + 1) rest (results ++ [.ok r]) shots
    | .error e =>
      if s.continueOnError then
        runSteps env (k + 1) rest (results ++ [.err e]) shots
      else .error e

/-- The step list of the loop: `config.automationSteps ||
config.browserActions || []` (an empty array is truthy in JavaScript, so
a present-but-empty automationSteps wins). -/
def configuredSteps (task : Task) : List AutomationStep :=
  match task.executionConfig.bind (fun c => c.automationSteps) with
  | some s => s
  | none => (task.executionConfig.bind (fun c => c.browserActions)).getD []

/-- The drizzle update persisting the session side channel onto the
execution record: set browserSessionId and debugUrl. -/
def sessionPatch (sessionId debugUrl : String) (e : TaskExecution) : TaskExecution :=
  { e with browserSessionId := some sessionId, debugUrl := some debugUrl }

/-- executeBrowserAutomation: create a browserbase session, persist the
session id and debug url onto the execution record, init stagehand, run
the steps, close stagehand after the loop, and return the aggregated
results.  Every oracle rejection is caught by the handler's try/catch and
converted into a failure result; note that `stagehand.close()` is executed
only on the path where the step loop finished without an uncaught step
error — it is not in a finally block. -/
def executeBrowserAutomation (env : Env) (task : Task) (executionId : Nat) (st : St) :
    ExecutionResult × St :=
  if task.executionConfig.bind (fun c => c.browserActions) = none ∧
     task.executionConfig.bind (fun c => c.automationSteps) = none then
    ({ success := false, error := some "No browser actions configured" }, st)
  else
    match env.createSession with
    | .error e => ({ success := false, error := some e }, st)
    | .ok sessionId =>
      let st1 := { st with sessionsCreated := st.sessionsCreated + 1 }
      match env.getSessionDebug with
      | .error e => ({ success := false, error := some e }, st1)
      | .ok debugUrl =>
        let st2 := updateExecRow st1 executionId (sessionPatch sessionId debugUrl)
        match env.stagehandInit with
        | .error e => ({ success := false, error := some e }, st2)
        | .ok _ =>
          match runSteps env 0 (configuredSteps task) [] [] with
          | .error e => ({ success := false, error := some e }, st2)
          | .ok (results, shots) =>
            let st3 := { st2 with sessionsClosed := st2.sessionsClosed + 1 }
            ({ success := true,
               output := some { steps := some results, sessionId := some sessionId },
               screenshots := some shots }, st3)

/-- executeApiCall.  Header and body assembly feed the external HTTP
client, which is the oracle `Env.fetchApi`; the handler's observable
behaviour is the endpoint check, timeout default and the translation of
the fetch outcome into a result. -/
def executeApiCall (env : Env) (task : Task) : ExecutionResult :=
  match task.executionConfig.bind (fun c => c.apiEndpoint) with
  | none => { success := false, error := some "No API endpoint configured" }
  | some _ =>
    let timeout := jsOrNat (task.executionConfig.bind (fun c => c.timeout)) 30000
    match env.fetchApi with
    | .aborted =>
      { success := false, error := some s!"API request timeout after {timeout}ms" }
    | .netError msg => { success := false, error := some msg }
    | .resp status statusText body =>
      if 200 ≤ status ∧ status < 300 then
        { success := true, output := some { data := some body } }
      else
        { success := false, output := some { data := some body },
          error := some s!"API returned {status}: {statusText}" }

/-- executeNotification: requires executionConfig and a source webhook with
outbound delivery enabled; enqueues a pending outbound message. -/
def executeNotification (task : Task) (st : St) : ExecutionResult × St :=
  match task.executionConfig, task.sourceWebhookId with
  | none, _ => ({ success := false, error := some "No webhook configured for notification" }, st)
  | some _, none => ({ success := false, error := some "No webhook configured for notification" }, st)
  | some config, some wid =>
    match st.webhooks.find? (fun w => decide (w.id = wid)) with
    | none => ({ success := false, error := some "Webhook not configured for outbound messages" }, st)
    | some webhook =>
      if webhook.outboundEnabled then
        let content := task.description.getD task.title
        let recip := config.recipient.getD "owner"
        let st1 := insertOutbound st
          { webhookId := webhook.id, userId := task.userId, msgTaskId := some task.id,
            conversationId := task.conversationId, messageType := "notification",
            content := content, recipientIdentifier := recip, deliveryStatus := "pending" }
        ({ success := true,
           output := some { message := some "Notification queued for delivery",
                            outTaskId := some task.id, webhookId := some webhook.id,
                            recipient := some recip } }, st1)
      else ({ success := false, error := some "Webhook not configured for outbound messages" }, st)

/-- executeReminder: requires reminderTime; when the task has a source
webhook, a scheduled reminder message is inserted — when it has none the
insert is skipped and the handler still succeeds. -/
def executeReminder (task : Task) (st : St) : ExecutionResult × St :=
  match task.executionConfig.bind (fun c => c.reminderTime) with
  | none => ({ success := false, error := some "Reminder time not specified" }, st)
  | some rt =>
    let config := task.executionConfig.getD {}
    let reminderMessage := config.reminderMessage.getD (task.description.getD task.title)
    let st1 :=
      match task.sourceWebhookId with
      | some wid =>
        insertOutbound st
          { webhookId := wid, userId := task.userId, msgTaskId := some task.id,
            conversationId := task.conversationId, messageType := "reminder",
            content := s!"Reminder: {reminderMessage}",
            recipientIdentifier := config.recipient.getD "owner",
            deliveryStatus := "pending", scheduledFor := some rt }
      | none => st
    ({ success := true,
       output := some { message := some "Reminder scheduled", outTaskId := some task.id,
                        scheduledFor := some rt, reminderMessage := some reminderMessage } }, st1)

/-- Named GHL actions mapped to REST endpoints by the source's switch. -/
def ghlKnownActions : List String :=
  ["add_contact", "send_sms", "create_opportunity", "add_tag", "update_contact"]

/-- executeGhlAction: requires ghlAction and a configured API key; a
recognised action is sent to the GHL REST API (oracle `Env.fetchGhl`, the
endpoint/payload shape being consumed by the HTTP client), an unrecognised
one fails without any HTTP call. -/
def executeGhlAction (env : Env) (task : Task) : ExecutionResult :=
  match task.executionConfig.bind (fun c => c.ghlAction) with
  | none => { success := false, error := some "GHL action not specified" }
  | some action =>
    match env.ghlApiKey with
    | none => { success := false, error := some "GHL API key not configured" }
    | some _ =>
      if action ∈ ghlKnownActions then
        match env.fetchGhl with
        | .resp status _ body =>
          if 200 ≤ status ∧ status < 300 then
            { success := true,
              output := some { message := some s!"GHL {action} completed successfully",
                               outTaskId := some task.id, ghlActionName := some action,
                               data := some body } }
          else
            { success := false, output := some { data := some body },
              error := some s!"GHL API error ({status}): {body}" }
        | .aborted => { success := false, error := some "GHL action failed" }
        | .netError msg => { success := false, error := some msg }
      else { success := false, error := some s!"Unknown GHL action: {action}" }

/-- executeReportGeneration: requires reportType among three known kinds;
aggregates counts from the store and optionally enqueues a summary
message when sendNotification is configured and the task has a source
webhook. -/
def executeReportGeneration (env : Env) (task : Task) (st : St) : ExecutionResult × St :=
  match task.executionConfig.bind (fun c => c.reportType) with
  | none => ({ success := false, error := some "Report type not specified" }, st)
  | some rt =>
    if rt = "task_summary" ∨ rt = "execution_stats" ∨ rt = "webhook_activity" then
      let startDate := (task.executionConfig.getD {}).startDate.getD
        (env.now - 30 * 24 * 60 * 60 * 1000)
      let endDate := (task.executionConfig.getD {}).endDate.getD env.now
      let total :=
        if rt = "task_summary" then
          (st.tasks.filter (fun t =>
            t.userId = task.userId ∧ startDate ≤ t.createdAt ∧ t.createdAt ≤ endDate)).length
        else if rt = "execution_stats" then
          (st.executions.filter (fun e =>
            (findTask st e.taskId).any (fun t => t.userId = task.userId))).length
        else
          (st.inbound.filter (fun m => m.userId = task.userId)).length
      let reportOutput : Output := { reportType := some rt, data := some (toString total) }
      let st1 :=
        if (task.executionConfig.getD {}).sendReportAsMessage then
          match task.sourceWebhookId with
          | some wid =>
            insertOutbound st
              { webhookId := wid, userId := task.userId, msgTaskId := some task.id,
                conversationId := task.conversationId, messageType := "task_update",
                content := s!"Report {rt}: {total}",
                recipientIdentifier := (task.executionConfig.getD {}).recipient.getD "owner",
                deliveryStatus := "pending" }
          | none => st
        else st
      ({ success := true, output := some reportOutput }, st1)
    else ({ success := false, error := some s!"Unknown report type: {rt}" }, st)

/-- executeCustomTask: trivial completion marker. -/
def executeCustomTask (task : Task) : ExecutionResult :=
  { success := true,
    output := some { message := some "Custom task completed", outTaskId := some task.id } }

-- ========================================
-- EXECUTE TASK (core state machine)
-- ========================================

/-- executeDataExtraction delegates to executeBrowserAutomation. -/
def executeDataExtraction (env : Env) (task : Task) (executionId : Nat) (st : St) :
    ExecutionResult × St :=
  executeBrowserAutomation env task executionId st

/-- The switch on task.taskType dispatching to the handler strategy. -/
def dispatch (env : Env) (task : Task) (executionId : Nat) (st : St) : ExecutionResult × St :=
  match task.taskType with
  | .browserAutomation => executeBrowserAutomation env task executionId st
  | .apiCall => (executeApiCall env task, st)
  | .notificationTask => executeNotification task st
  | .reminder => executeReminder task st
  | .ghlAction => (executeGhlAction env task, st)
  | .dataExtraction => executeDataExtraction env task executionId st
  | .reportGeneration => executeReportGeneration env task st
  | .custom => (executeCustomTask task, st)

/-- The TaskExecution row inserted at step 4 of executeTask: status
running, attemptNumber = (task.errorCount || 0) + 1. -/
def runningExec (st : St) (taskId : Nat) (triggeredBy : String) (task : Task) : TaskExecution :=
  { id := st.nextExecId, taskId := taskId, triggeredBy := triggeredBy,
    status := .running, attemptNumber := jsOrNat task.errorCount 0 + 1 }

/-- db.insert(taskExecutions): append the running record, advancing the
autoincrement id. -/
def withNewExec (st : St) (taskId : Nat) (tb : String) (task : Task) : St :=
  { st with executions := st.executions ++ [runningExec st taskId tb task],
            nextExecId := st.nextExecId + 1 }

/-- The task update of step 4: status in_progress, startedAt. -/
def inProgressPatch (env : Env) (t : Task) : Task :=
  { t with status := .inProgress, startedAt := some env.now, updatedAt := some env.now }

/-- Steps 4 of executeTask after validation: insert the running execution
record, then set the task to in_progress with startedAt. -/
def preDispatch (env : Env) (st : St) (taskId : Nat) (triggeredBy : String) (task : Task) : St :=
  updateTaskRow (withNewExec st taskId triggeredBy task) taskId (inProgressPatch env)

/-- The terminal column update of the execution record (step 6/7). -/
def terminalPatch (env : Env) (result : ExecutionResult) (e : TaskExecution) : TaskExecution :=
  { e with status := if result.success then .success else .failed,
           output := result.output, error := result.error,
           duration := some env.durationMs, screenshots := result.screenshots,
           completedAt := some env.now }

/-- The single terminal update of the execution record (step 6/7). -/
def recordTerminal (env : Env) (executionId : Nat) (result : ExecutionResult) (st : St) : St :=
  updateExecRow st executionId (terminalPatch env result)

/-- The execution-record update performed by executeTask's top-level
catch. -/
def catchPatch (env : Env) (msg : String) (e : TaskExecution) : TaskExecution :=
  { e with status := .failed, error := some msg,
           duration := some env.durationMs, completedAt := some env.now }

/-- The top-level catch: mark the record failed with the exception message
and duration (the task row is not touched on this path). -/
def recordCatch (env : Env) (executionId : Nat) (msg : String) (st : St) : St :=
  updateExecRow st executionId (catchPatch env msg)

/-- The task update of step 6: completed, with result and summary. -/
def completedPatch (env : Env) (result : ExecutionResult) (t : Task) : Task :=
  { t with status := .completed, completedAt := some env.now,
           result := result.output,
           resultSummary := some (generateResultSummary result),
           updatedAt := some env.now }

/-- Step 6: on handler success, complete the task and optionally notify. -/
def finalizeSuccess (env : Env) (task : Task) (result : ExecutionResult) (st : St) : St :=
  if task.notifyOnComplete then
    sendNotification task "completed" result
      (updateTaskRow st task.id (completedPatch env result))
  else updateTaskRow st task.id (completedPatch env result)

/-- The terminal task update of step 7 when maxRetries is exhausted. -/
def failPatch (env : Env) (result : ExecutionResult) (n : Nat) (t : Task) : Task :=
  { t with status := .failed, lastError := result.error, errorCount := some n,
           statusReason := some s!"Failed after {n} attempts", updatedAt := some env.now }

/-- The retry task update of step 7 while attempts remain. -/
def pendingPatch (env : Env) (result : ExecutionResult) (n : Nat) (t : Task) : Task :=
  { t with status := .pending, lastError := result.error, errorCount := some n,
           statusReason := some s!"Attempt {n} failed, will retry", updatedAt := some env.now }

/-- Step 7: on handler failure, increment errorCount and either fail the
task terminally (notifying when configured) or return it to pending for a
later scheduler pass; newErrorCount = (errorCount || 0) + 1 and
maxRetries = task.maxRetries || 3. -/
def finalizeFailure (env : Env) (task : Task) (result : ExecutionResult) (st : St) : St :=
  if jsOrNat task.maxRetries 3 ≤ jsOrNat task.errorCount 0 + 1 then
    if task.notifyOnFailure then
      sendNotification task "failed" result
        (updateTaskRow st task.id (failPatch env result (jsOrNat task.errorCount 0 + 1)))
    else updateTaskRow st task.id (failPatch env result (jsOrNat task.errorCount 0 + 1))
  else updateTaskRow st task.id (pendingPatch env result (jsOrNat task.errorCount 0 + 1))

/-- Steps 5-7 as a function of the dispatch result: terminal record
update, then the task-status transition matching the result. -/
def afterDispatch (env : Env) (task : Task) (executionId : Nat)
    (pair : ExecutionResult × St) : ExecutionResult × St :=
  let st4 := recordTerminal env executionId pair.1 pair.2
  let st5 := if pair.1.success then finalizeSuccess env task pair.1 st4
             else finalizeFailure env task pair.1 st4
  ({ pair.1 with duration := some env.durationMs }, st5)

/-- Steps 4-8 of executeTask, entered once the preconditions and
validation have passed.  A handler-escaping rejection (Env.dispatchFault)
is caught by the top-level catch, which marks the record failed and
returns a failure result. -/
def afterValidation (env : Env) (st : St) (taskId : Nat) (triggeredBy : String) (task : Task) :
    ExecutionResult × St :=
  let executionId := st.nextExecId
  let st2 := preDispatch env st taskId triggeredBy task
  match env.dispatchFault with
  | some msg =>
    ({ success := false, error := some msg, duration := some env.durationMs },
     recordCatch env executionId msg st2)
  | none => afterDispatch env task executionId (dispatch env task executionId st2)

/-- executeTask(taskId, triggeredBy): fetch, precondition checks,
validation, then the record lifecycle around the dispatched handler. -/
def executeTask (env : Env) (st : St) (taskId : Nat) (triggeredBy : String) :
    ExecutionResult × St :=
  match findTask st taskId with
  | none => ({ success := false, error := some "Task not found" }, st)
  | some task =>
    if task.status = .completed then
      ({ success := false, error := some "Task is already completed" }, st)
    else if task.status = .cancelled then
      ({ success := false, error := some "Task is cancelled" }, st)
    else if task.requiresHumanReview = true ∧ task.humanReviewedBy = none then
      ({ success := false, error := some "Task requires human review" }, st)
    else
      match validateTaskConfig env task with
      | some e => ({ success := false, error := some e }, st)
      | none => afterValidation env st taskId triggeredBy task

-- ========================================
-- SCHEDULER QUERY
-- ========================================

/-- The where-clause of processPendingTasks: assignedToBot,
not requiresHumanReview, status pending or queued, and scheduledFor null
or in the past. -/
def pendingPredicate (now : Nat) (t : Task) : Bool :=
  t.assignedToBot && !t.requiresHumanReview &&
  (decide (t.status = .pending) || decide (t.status = .queued)) &&
  (match t.scheduledFor with
   | none => true
   | some s => decide (s ≤ now))

/-- The sequential loop over the selected batch: each task is passed to
executeTask(id, "scheduled"); returns (success count, failed count, final
state). -/
def runBatch (env : Env) (tasks : List Task) (st : St) : Nat × Nat × St :=
  match tasks with
  | [] => (0, 0, st)
  | t :: rest =>
    if (executeTask env st t.id "scheduled").1.success then
      ((runBatch env rest (executeTask env st t.id "scheduled").2).1 + 1,
       (runBatch env rest (executeTask env st t.id "scheduled").2).2.1,
       (runBatch env rest (executeTask env st t.id "scheduled").2).2.2)
    else
      ((runBatch env rest (executeTask env st t.id "scheduled").2).1,
       (runBatch env rest (executeTask env st t.id "scheduled").2).2.1 + 1,
       (runBatch env rest (executeTask env st t.id "scheduled").2).2.2)

/-- Aggregate counts returned by processPendingTasks. -/
structure BatchCounts where
  processed : Nat
  success : Nat
  failed : Nat
deriving DecidableEq

/-- processPendingTasks(): select up to 10 eligible tasks, execute each
sequentially, return aggregate counts. -/
def processPendingTasks (env : Env) (st : St) : BatchCounts × St :=
  let pendingTasks := (st.tasks.filter (pendingPredicate env.now)).take 10
  let out := runBatch env pendingTasks st
  ({ processed := pendingTasks.length, success := out.1, failed := out.2.1 }, out.2.2)

-- ========================================
-- CIRCUIT BREAKER (resilience primitive)
-- ========================================

/-- Circuit breaker state. -/
inductive CBState
  | closed | opened | halfOpen
deriving DecidableEq

/-- Per-dependency breaker configuration: failure threshold, reset
timeout, success threshold to close from half-open.  The monitoring
window is not modelled: the properties below concern consecutive
failures, for which the window is irrelevant. -/
structure CBConfig where
  failureThreshold : Nat
  resetTimeoutMs : Nat
  successThreshold : Nat
deriving DecidableEq

/-- One named breaker instance: state, consecutive failure count,
consecutive success count (meaningful in half-open), timestamp of the
last state transition. -/
structure CircuitBreaker where
  state : CBState
  failureCount : Nat
  successCount : Nat
  lastTransition : Nat
deriving DecidableEq

/-- Outcome of execute(operation) on a breaker: `rejected` means the call
was refused without invoking the underlying operation; `ran b` means the
operation was invoked and finished with success flag `b`. -/
inductive CBOutcome
  | rejected
  | ran (success : Bool)
deriving DecidableEq

/-- Modelled from the spec: the HALF_OPEN branch of execute(operation) of
server/lib/circuitBreaker.ts, which is not under src/.  A trial success
increments the success counter and, on reaching the success threshold,
closes the breaker resetting all counters; any single failure immediately
reopens the breaker and resets the reset-timeout clock. -/
def cbHalfOpenCall (cfg : CBConfig) (now : Nat) (opSucceeds : Bool) (b : CircuitBreaker) :
    CBOutcome × CircuitBreaker :=
  if opSucceeds then
    if cfg.successThreshold ≤ b.successCount + 1 then
      (.ran true, { state := .closed, failureCount := 0, successCount := 0, lastTransition := now })
    else (.ran true, { b with state := .halfOpen, successCount := b.successCount + 1 })
  else
    (.ran false,
     { state := .opened, failureCount := b.failureCount, successCount := 0, lastTransition := now })

/-- Modelled from the spec: execute(operation) of
server/lib/circuitBreaker.ts, which is not under src/ (only its callers
and the implementation summary are).  CLOSED: run the operation, counting
consecutive failures and opening at the failure threshold.  OPEN: reject
immediately until the reset timeout has elapsed since the OPEN
transition, then transition to HALF_OPEN and let the call through as a
trial.  HALF_OPEN: see cbHalfOpenCall.  `opSucceeds` is the outcome the
underlying operation would have if invoked. -/
def cbExecute (cfg : CBConfig) (now : Nat) (opSucceeds : Bool) (b : CircuitBreaker) :
    CBOutcome × CircuitBreaker :=
  match b.state with
  | .opened =>
    if b.lastTransition + cfg.resetTimeoutMs ≤ now then
      cbHalfOpenCall cfg now opSucceeds { b with state := .halfOpen, successCount := 0 }
    else (.rejected, b)
  | .halfOpen => cbHalfOpenCall cfg now opSucceeds b
  | .closed =>
    if opSucceeds then (.ran true, { b with failureCount := 0 })
    else
      if cfg.failureThreshold ≤ b.failureCount + 1 then
        (.ran false, { state := .opened, failureCount := b.failureCount + 1,
                       successCount := 0, lastTransition := now })
      else (.ran false, { b with failureCount := b.failureCount + 1 })

/-- A freshly registered breaker: CLOSED with zeroed counters. -/
def freshBreaker (t0 : Nat) : CircuitBreaker :=
  { state := .closed, failureCount := 0, successCount := 0, lastTransition := t0 }

/-- n consecutive failing calls at time t. -/
def cbFailIter (cfg : CBConfig) (t : Nat) (n : Nat) (b : CircuitBreaker) : CircuitBreaker :=
  (fun x => (cbExecute cfg t false x).2)^[n] b

/-- n consecutive succeeding calls at time t. -/
def cbSuccessIter (cfg : CBConfig) (t : Nat) (n : Nat) (b : CircuitBreaker) : CircuitBreaker :=
  (fun x => (cbExecute cfg t true x).2)^[n] b

-- ========================================
-- CONCRETE FIXTURES (used by witnesses and counterexamples)
-- ========================================

/-- A benign environment: every oracle succeeds. -/
def env0 : Env :=
  { now := 100, durationMs := 5, validUrl := fun _ => true,
    createSession := .ok "sess-1", getSessionDebug := .ok "https://debug",
    stagehandInit := .ok (), runStep := fun _ _ => .ok "done",
    takeScreenshot := fun _ => .ok "/tmp/s.png",
    fetchApi := .resp 200 "OK" "body", fetchGhl := .resp 200 "OK" "body" }

-- ========================================
-- THEOREMS
-- ========================================

/-- Helper: the claimed missing-required-field conditions, per task type. -/
def apiEndpointBad (env : Env) (task : Task) : Bool :=
  match task.executionConfig.bind (fun c => c.apiEndpoint) with
  | none => true
  | some u => !env.validUrl u

/-- The disjunction of per-type missing-required-field conditions: the
configurations the specification calls validation failures. -/
def missingRequiredField (env : Env) (task : Task) : Prop :=
  ((task.taskType = .browserAutomation ∨ task.taskType = .dataExtraction) ∧
     task.executionConfig.bind (fun c => c.automationSteps) = none ∧
     task.executionConfig.bind (fun c => c.browserActions) = none) ∨
  (task.taskType = .apiCall ∧ apiEndpointBad env task = true) ∨
  (task.taskType = .ghlAction ∧ task.executionConfig.bind (fun c => c.ghlAction) = none) ∨
  (task.taskType = .reminder ∧ task.executionConfig.bind (fun c => c.reminderTime) = none) ∨
  (task.taskType = .reportGeneration ∧ task.executionConfig.bind (fun c => c.reportType) = none)

instance (env : Env) (task : Task) : Decidable (missingRequiredField env task) := by
  unfold missingRequiredField
  infer_instance

/-- A configuration missing its required field never passes
validateTaskConfig. -/
theorem missing_field_invalidates (env : Env) (task : Task)
    (h : missingRequiredField env task) : validateTaskConfig env task ≠ none := by
  unfold validateTaskConfig
  split
  · simp
  · rcases h with ⟨ht, h1, h2⟩ | ⟨ht, h1⟩ | ⟨ht, h1⟩ | ⟨ht, h1⟩ | ⟨ht, h1⟩
    · rcases ht with ht | ht <;> simp [ht, h1, h2]
    · unfold apiEndpointBad at h1
      cases hb : task.executionConfig.bind (fun c => c.apiEndpoint) with
      | none => simp [ht, hb]
      | some u =>
        rw [hb] at h1
        simp only [Bool.not_eq_true'] at h1
        simp [ht, hb, h1]
    · simp [ht, h1]
    · simp [ht, h1]
    · simp [ht, h1]

/-- C1: executeTask on a task that is completed, cancelled, or gated on
human review returns success = false with the respective error message,
creates no execution record and performs no task mutation (the final
state is the initial state; when the task is both terminal and
review-gated the status check takes precedence). -/
theorem executeTask_rejects_terminal_and_review_tasks
    (env : Env) (st : St) (taskId : Nat) (tb : String) (task : Task)
    (hfind : findTask st taskId = some task)
    (hcond : task.status = .completed ∨ task.status = .cancelled ∨
             (task.requiresHumanReview = true ∧ task.humanReviewedBy = none)) :
    (executeTask env st taskId tb).1.success = false ∧
    (executeTask env st taskId tb).2 = st ∧
    (task.status = .completed →
      (executeTask env st taskId tb).1.error = some "Task is already completed") ∧
    (task.status = .cancelled →
      (executeTask env st taskId tb).1.error = some "Task is cancelled") ∧
    (task.status ≠ .completed → task.status ≠ .cancelled →
      (executeTask env st taskId tb).1.error = some "Task requires human review") := by
  unfold executeTask
  rw [hfind]
  by_cases h1 : task.status = .completed
  · simp [h1]
  · by_cases h2 : task.status = .cancelled
    · simp [h1, h2]
    · have h3 : task.requiresHumanReview = true ∧ task.humanReviewedBy = none := by
        rcases hcond with h | h | h
        · exact absurd h h1
        · exact absurd h h2
        · exact h
      simp [h1, h2, h3]

def taskC1 : Task :=
  { id := 1, userId := 7, title := "done already", taskType := .custom, status := .completed }

def stC1 : St :=
  { tasks := [taskC1], executions := [], outbound := [], webhooks := [], nextExecId := 1 }

/-- Witness for C1 at a concrete completed task. -/
theorem executeTask_rejects_terminal_and_review_tasks_witness :
    findTask stC1 1 = some taskC1 ∧
    (taskC1.status = .completed ∨ taskC1.status = .cancelled ∨
      (taskC1.requiresHumanReview = true ∧ taskC1.humanReviewedBy = none)) ∧
    (executeTask env0 stC1 1 "manual").1.success = false ∧
    (executeTask env0 stC1 1 "manual").2 = stC1 :=
  ⟨by decide, by decide,
   (executeTask_rejects_terminal_and_review_tasks env0 stC1 1 "manual" taskC1
      (by decide) (by decide)).1,
   (executeTask_rejects_terminal_and_review_tasks env0 stC1 1 "manual" taskC1
      (by decide) (by decide)).2.1⟩

/-- C2: a task whose executionConfig is missing the field required by its
task type makes executeTask return success = false with the state
untouched (so no execution record is created and the task row is not
mutated), and calling executeTask again on the resulting state returns
the identical result — the invalid call is idempotent and side-effect
free. -/
theorem executeTask_invalid_config_no_side_effects
    (env : Env) (st : St) (taskId : Nat) (tb : String) (task : Task)
    (hfind : findTask st taskId = some task)
    (hmiss : missingRequiredField env task) :
    (executeTask env st taskId tb).1.success = false ∧
    (executeTask env st taskId tb).2 = st ∧
    executeTask env (executeTask env st taskId tb).2 taskId tb =
      executeTask env st taskId tb := by
  have key : (executeTask env st taskId tb).1.success = false ∧
      (executeTask env st taskId tb).2 = st := by
    unfold executeTask
    rw [hfind]
    by_cases h1 : task.status = .completed
    · simp [h1]
    · by_cases h2 : task.status = .cancelled
      · simp [h1, h2]
      · by_cases h3 : task.requiresHumanReview = true ∧ task.humanReviewedBy = none
        · simp [h1, h2, h3]
        · cases hv : validateTaskConfig env task with
          | none => exact absurd hv (missing_field_invalidates env task hmiss)
          | some e => simp [h1, h2, h3, hv]
  exact ⟨key.1, key.2, by rw [key.2]⟩

def taskC2 : Task :=
  { id := 2, userId := 7, title := "call an api", taskType := .apiCall, status := .pending,
    executionConfig := some { apiMethod := some "GET" } }

def stC2 : St :=
  { tasks := [taskC2], executions := [], outbound := [], webhooks := [], nextExecId := 1 }

/-- Witness for C2 at a concrete api_call task with no apiEndpoint. -/
theorem executeTask_invalid_config_no_side_effects_witness :
    findTask stC2 2 = some taskC2 ∧
    missingRequiredField env0 taskC2 ∧
    (executeTask env0 stC2 2 "manual").1.success = false ∧
    (executeTask env0 stC2 2 "manual").2 = stC2 :=
  ⟨by decide, by decide,
   (executeTask_invalid_config_no_side_effects env0 stC2 2 "manual" taskC2
      (by decide) (by decide)).1,
   (executeTask_invalid_config_no_side_effects env0 stC2 2 "manual" taskC2
      (by decide) (by decide)).2.1⟩

-- ========================================
-- STATE-PRESERVATION HELPER LEMMAS
-- ========================================

@[simp] theorem updateTaskRow_executions (st : St) (k : Nat) (f : Task → Task) :
    (updateTaskRow st k f).executions = st.executions := rfl

@[simp] theorem updateTaskRow_outbound (st : St) (k : Nat) (f : Task → Task) :
    (updateTaskRow st k f).outbound = st.outbound := rfl

@[simp] theorem updateExecRow_tasks (st : St) (k : Nat) (f : TaskExecution → TaskExecution) :
    (updateExecRow st k f).tasks = st.tasks := rfl

@[simp] theorem updateExecRow_outbound (st : St) (k : Nat) (f : TaskExecution → TaskExecution) :
    (updateExecRow st k f).outbound = st.outbound := rfl

@[simp] theorem preDispatch_executions (env : Env) (st : St) (taskId : Nat) (tb : String)
    (task : Task) :
    (preDispatch env st taskId tb task).executions =
      st.executions ++ [runningExec st taskId tb task] := rfl

@[simp] theorem preDispatch_outbound (env : Env) (st : St) (taskId : Nat) (tb : String)
    (task : Task) : (preDispatch env st taskId tb task).outbound = st.outbound := rfl

@[simp] theorem recordTerminal_outbound (env : Env) (k : Nat) (r : ExecutionResult) (st : St) :
    (recordTerminal env k r st).outbound = st.outbound := rfl

@[simp] theorem recordTerminal_tasks (env : Env) (k : Nat) (r : ExecutionResult) (st : St) :
    (recordTerminal env k r st).tasks = st.tasks := rfl

@[simp] theorem recordCatch_outbound (env : Env) (k : Nat) (msg : String) (st : St) :
    (recordCatch env k msg st).outbound = st.outbound := rfl

@[simp] theorem recordCatch_tasks (env : Env) (k : Nat) (msg : String) (st : St) :
    (recordCatch env k msg st).tasks = st.tasks := rfl

theorem sendNotification_no_webhook (task : Task) (status : String)
    (result : ExecutionResult) (st : St) (h : task.sourceWebhookId = none) :
    sendNotification task status result st = st := by
  unfold sendNotification
  rw [h]

/-- Membership in an updated task table: updating by key maps the row with
that key to its updated version. -/
theorem mem_updateTaskRow_of_mem (st : St) (key : Nat) (f : Task → Task) (t : Task)
    (ht : t ∈ st.tasks) (hid : t.id = key) : f t ∈ (updateTaskRow st key f).tasks := by
  unfold updateTaskRow
  have := List.mem_map_of_mem (fun x => if x.id = key then f x else x) ht
  simpa [hid] using this

/-- On the validated path, executeTask is exactly the record-lifecycle
phase afterValidation. -/
theorem executeTask_validated_eq
    (env : Env) (st : St) (taskId : Nat) (tb : String) (task : Task)
    (hfind : findTask st taskId = some task)
    (h1 : task.status ≠ .completed) (h2 : task.status ≠ .cancelled)
    (h3 : ¬(task.requiresHumanReview = true ∧ task.humanReviewedBy = none))
    (hval : validateTaskConfig env task = none) :
    executeTask env st taskId tb = afterValidation env st taskId tb task := by
  unfold executeTask
  rw [hfind]
  simp [h1, h2, h3, hval]

/-- A found task is a member of the table and carries the searched id. -/
theorem findTask_mem_id (st : St) (taskId : Nat) (task : Task)
    (hfind : findTask st taskId = some task) : task ∈ st.tasks ∧ task.id = taskId := by
  unfold findTask at hfind
  refine ⟨List.mem_of_find?_eq_some hfind, ?_⟩
  have := List.find?_some hfind
  simpa using this

/-- C6: on the validated path executeTask appends exactly one TaskExecution
row with status running and attemptNumber = errorCount-at-fetch + 1, puts
the task row into in_progress with startedAt set, and only then runs the
dispatch phase (executeTask equals afterValidation applied to the
pre-dispatch state). -/
theorem executeTask_creates_running_record_before_dispatch
    (env : Env) (st : St) (taskId : Nat) (tb : String) (task : Task)
    (hfind : findTask st taskId = some task)
    (h1 : task.status ≠ .completed) (h2 : task.status ≠ .cancelled)
    (h3 : ¬(task.requiresHumanReview = true ∧ task.humanReviewedBy = none))
    (hval : validateTaskConfig env task = none) :
    (preDispatch env st taskId tb task).executions =
      st.executions ++ [runningExec st taskId tb task] ∧
    (runningExec st taskId tb task).status = .running ∧
    (runningExec st taskId tb task).attemptNumber = jsOrNat task.errorCount 0 + 1 ∧
    (∃ t, t ∈ (preDispatch env st taskId tb task).tasks ∧ t.id = taskId ∧
      t.status = .inProgress ∧ t.startedAt = some env.now) ∧
    executeTask env st taskId tb = afterValidation env st taskId tb task := by
  obtain ⟨hmem, hid⟩ := findTask_mem_id st taskId task hfind
  refine ⟨rfl, rfl, rfl, ?_, executeTask_validated_eq env st taskId tb task hfind h1 h2 h3 hval⟩
  unfold preDispatch
  refine ⟨_, mem_updateTaskRow_of_mem _ taskId _ task ?_ hid, ?_, rfl, rfl⟩
  · exact hmem
  · simpa using hid

def taskC6 : Task :=
  { id := 3, userId := 7, title := "free-form", taskType := .custom, status := .queued,
    errorCount := some 1 }

def stC6 : St :=
  { tasks := [taskC6], executions := [], outbound := [], webhooks := [], nextExecId := 4 }

/-- Witness for C6 at a concrete custom task with one prior error. -/
theorem executeTask_creates_running_record_before_dispatch_witness :
    findTask stC6 3 = some taskC6 ∧
    validateTaskConfig env0 taskC6 = none ∧
    (preDispatch env0 stC6 3 "manual" taskC6).executions =
      stC6.executions ++ [runningExec stC6 3 "manual" taskC6] ∧
    (runningExec stC6 3 "manual" taskC6).attemptNumber = 2 :=
  ⟨by decide, by decide,
   (executeTask_creates_running_record_before_dispatch env0 stC6 3 "manual" taskC6
      (by decide) (by decide) (by decide) (by decide) (by decide)).1,
   by decide⟩

/-- Without an injected handler fault, afterValidation is the dispatch
sandwiched between the pre-dispatch record creation and the terminal
updates. -/
theorem afterValidation_no_fault (env : Env) (st : St) (taskId : Nat) (tb : String)
    (task : Task) (hfault : env.dispatchFault = none) :
    afterValidation env st taskId tb task =
      afterDispatch env task st.nextExecId
        (dispatch env task st.nextExecId (preDispatch env st taskId tb task)) := by
  unfold afterValidation
  rw [hfault]

/-- C10: a reminder task with a reminderTime but no sourceWebhookId
succeeds (output message "Reminder scheduled") while enqueueing no
outbound message at all, and the task is then marked completed. -/
theorem executeReminder_without_webhook_silent_success
    (env : Env) (st : St) (taskId : Nat) (tb : String) (task : Task)
    (cfg : ExecConfig) (rt : Nat)
    (hfind : findTask st taskId = some task)
    (htype : task.taskType = .reminder)
    (h1 : task.status ≠ .completed) (h2 : task.status ≠ .cancelled)
    (h3 : ¬(task.requiresHumanReview = true ∧ task.humanReviewedBy = none))
    (hcfg : task.executionConfig = some cfg) (hrt : cfg.reminderTime = some rt)
    (hweb : task.sourceWebhookId = none)
    (hfault : env.dispatchFault = none) :
    (executeTask env st taskId tb).1.success = true ∧
    ((executeTask env st taskId tb).1.output.bind (fun o => o.message)) =
      some "Reminder scheduled" ∧
    (executeTask env st taskId tb).2.outbound = st.outbound ∧
    (∃ t, t ∈ (executeTask env st taskId tb).2.tasks ∧ t.id = taskId ∧
      t.status = .completed) := by
  obtain ⟨hmem, hid⟩ := findTask_mem_id st taskId task hfind
  have hval : validateTaskConfig env task = none := by
    unfold validateTaskConfig
    simp [htype, hcfg, hrt, requiresConfigTypes]
  have heq := executeTask_validated_eq env st taskId tb task hfind h1 h2 h3 hval
  rw [heq, afterValidation_no_fault env st taskId tb task hfault]
  have hrem : dispatch env task st.nextExecId (preDispatch env st taskId tb task) =
      executeReminder task (preDispatch env st taskId tb task) := by
    unfold dispatch
    rw [htype]
  rw [hrem]
  unfold executeReminder
  rw [hcfg]
  simp only [Option.some_bind, hrt]
  rw [hweb]
  refine ⟨rfl, rfl, ?_, ?_⟩
  · -- outbound is untouched on every sub-step of the success path
    show (finalizeSuccess env task _ _).outbound = st.outbound
    unfold finalizeSuccess
    by_cases hn : task.notifyOnComplete
    · rw [if_pos hn, sendNotification_no_webhook _ _ _ _ hweb]
      simp
    · rw [if_neg hn]
      simp
  · -- the fetched task's row ends completed
    show ∃ t, t ∈ (finalizeSuccess env task _ _).tasks ∧ t.id = taskId ∧ t.status = .completed
    unfold finalizeSuccess
    have hmem4 := mem_updateTaskRow_of_mem (withNewExec st taskId tb task) taskId
      (inProgressPatch env) task hmem hid
    by_cases hn : task.notifyOnComplete
    · rw [if_pos hn, sendNotification_no_webhook _ _ _ _ hweb]
      exact ⟨_, mem_updateTaskRow_of_mem _ task.id _ _ hmem4 rfl, hid, rfl⟩
    · rw [if_neg hn]
      exact ⟨_, mem_updateTaskRow_of_mem _ task.id _ _ hmem4 rfl, hid, rfl⟩

def taskC10 : Task :=
  { id := 4, userId := 7, title := "remind me", taskType := .reminder, status := .pending,
    executionConfig := some { reminderTime := some 500 } }

def stC10 : St :=
  { tasks := [taskC10], executions := [], outbound := [], webhooks := [], nextExecId := 1 }

/-- Witness for C10 at a concrete reminder task with no source webhook. -/
theorem executeReminder_without_webhook_silent_success_witness :
    findTask stC10 4 = some taskC10 ∧
    taskC10.taskType = .reminder ∧
    taskC10.sourceWebhookId = none ∧
    (executeTask env0 stC10 4 "manual").1.success = true ∧
    (executeTask env0 stC10 4 "manual").2.outbound = stC10.outbound :=
  ⟨by decide, by decide, by decide,
   (executeReminder_without_webhook_silent_success env0 stC10 4 "manual" taskC10
      { reminderTime := some 500 } 500 (by decide) (by decide) (by decide) (by decide)
      (by decide) (by decide) (by decide) (by decide) rfl).1,
   (executeReminder_without_webhook_silent_success env0 stC10 4 "manual" taskC10
      { reminderTime := some 500 } 500 (by decide) (by decide) (by decide) (by decide)
      (by decide) (by decide) (by decide) (by decide) rfl).2.2.1⟩

-- ========================================
-- DISPATCH SHAPE LEMMAS
-- ========================================

@[simp] theorem insertOutbound_tasks (st : St) (m : OutboundMessage) :
    (insertOutbound st m).tasks = st.tasks := rfl

@[simp] theorem insertOutbound_executions (st : St) (m : OutboundMessage) :
    (insertOutbound st m).executions = st.executions := rfl

@[simp] theorem insertOutbound_webhooks (st : St) (m : OutboundMessage) :
    (insertOutbound st m).webhooks = st.webhooks := rfl

@[simp] theorem updateTaskRow_webhooks (st : St) (k : Nat) (f : Task → Task) :
    (updateTaskRow st k f).webhooks = st.webhooks := rfl

@[simp] theorem updateExecRow_webhooks (st : St) (k : Nat) (f : TaskExecution → TaskExecution) :
    (updateExecRow st k f).webhooks = st.webhooks := rfl

theorem sendNotification_tasks (task : Task) (status : String) (result : ExecutionResult)
    (st : St) : (sendNotification task status result st).tasks = st.tasks := by
  unfold sendNotification
  split
  · rfl
  · split
    · rfl
    · split <;> rfl

theorem sendNotification_executions (task : Task) (status : String) (result : ExecutionResult)
    (st : St) : (sendNotification task status result st).executions = st.executions := by
  unfold sendNotification
  split
  · rfl
  · split
    · rfl
    · split <;> rfl

theorem executeNotification_state (task : Task) (st : St) :
    (executeNotification task st).2.tasks = st.tasks ∧
    (executeNotification task st).2.executions = st.executions ∧
    (executeNotification task st).2.webhooks = st.webhooks := by
  unfold executeNotification
  split
  · exact ⟨rfl, rfl, rfl⟩
  · exact ⟨rfl, rfl, rfl⟩
  · split
    · exact ⟨rfl, rfl, rfl⟩
    · split <;> exact ⟨rfl, rfl, rfl⟩

theorem executeReminder_state (task : Task) (st : St) :
    (executeReminder task st).2.tasks = st.tasks ∧
    (executeReminder task st).2.executions = st.executions ∧
    (executeReminder task st).2.webhooks = st.webhooks := by
  unfold executeReminder
  split
  · exact ⟨rfl, rfl, rfl⟩
  · split <;> exact ⟨rfl, rfl, rfl⟩

theorem executeReportGeneration_state (env : Env) (task : Task) (st : St) :
    (executeReportGeneration env task st).2.tasks = st.tasks ∧
    (executeReportGeneration env task st).2.executions = st.executions ∧
    (executeReportGeneration env task st).2.webhooks = st.webhooks := by
  unfold executeReportGeneration
  refine ⟨?_, ?_, ?_⟩ <;> (repeat' split) <;> rfl

/-- Mapping the identity row-patch over a table changes nothing. -/
theorem map_updAt_id (k : Nat) (l : List TaskExecution) :
    l.map (updAt k (fun e => e)) = l := by
  have h : updAt k (fun e : TaskExecution => e) = fun e => e := by
    funext e
    unfold updAt
    split <;> rfl
  rw [h]
  simp

/-- The browser-automation handler either leaves the execution table alone
or patches only the session side-channel fields of the addressed record;
it never changes a record's id or status, and it never touches the task
table or webhooks. -/
theorem executeBrowserAutomation_shape (env : Env) (task : Task) (k : Nat) (st : St) :
    (∃ f : TaskExecution → TaskExecution,
      (∀ e, (f e).id = e.id ∧ (f e).status = e.status) ∧
      (executeBrowserAutomation env task k st).2.executions = st.executions.map (updAt k f)) ∧
    (executeBrowserAutomation env task k st).2.tasks = st.tasks ∧
    (executeBrowserAutomation env task k st).2.webhooks = st.webhooks := by
  unfold executeBrowserAutomation
  repeat' split
  all_goals first
    | exact ⟨⟨fun e => e, fun e => ⟨rfl, rfl⟩, (map_updAt_id k st.executions).symm⟩, rfl, rfl⟩
    | exact ⟨⟨sessionPatch _ _, fun e => ⟨rfl, rfl⟩, rfl⟩, rfl, rfl⟩

/-- Dispatch shape: no handler creates or removes execution records, and
the only execution-table mutation is the id/status-preserving session
patch of the addressed record; the task table and webhooks are untouched
by every handler. -/
theorem dispatch_shape (env : Env) (task : Task) (k : Nat) (st : St) :
    (∃ f : TaskExecution → TaskExecution,
      (∀ e, (f e).id = e.id ∧ (f e).status = e.status) ∧
      (dispatch env task k st).2.executions = st.executions.map (updAt k f)) ∧
    (dispatch env task k st).2.tasks = st.tasks ∧
    (dispatch env task k st).2.webhooks = st.webhooks := by
  have hid : ∀ stX : St, stX.executions = stX.executions.map (updAt k (fun e => e)) :=
    fun stX => (map_updAt_id k stX.executions).symm
  unfold dispatch
  cases task.taskType with
  | browserAutomation => exact executeBrowserAutomation_shape env task k st
  | apiCall => exact ⟨⟨fun e => e, fun e => ⟨rfl, rfl⟩, hid st⟩, rfl, rfl⟩
  | ghlAction => exact ⟨⟨fun e => e, fun e => ⟨rfl, rfl⟩, hid st⟩, rfl, rfl⟩
  | custom => exact ⟨⟨fun e => e, fun e => ⟨rfl, rfl⟩, hid st⟩, rfl, rfl⟩
  | notificationTask =>
    obtain ⟨ht, he, hw⟩ := executeNotification_state task st
    exact ⟨⟨fun e => e, fun e => ⟨rfl, rfl⟩, he.trans (hid st)⟩, ht, hw⟩
  | reminder =>
    obtain ⟨ht, he, hw⟩ := executeReminder_state task st
    exact ⟨⟨fun e => e, fun e => ⟨rfl, rfl⟩, he.trans (hid st)⟩, ht, hw⟩
  | reportGeneration =>
    obtain ⟨ht, he, hw⟩ := executeReportGeneration_state env task st
    exact ⟨⟨fun e => e, fun e => ⟨rfl, rfl⟩, he.trans (hid st)⟩, ht, hw⟩
  | dataExtraction => exact executeBrowserAutomation_shape env task k st

-- ========================================
-- FAILURE-PATH LEMMAS AND C3
-- ========================================

/-- Abbreviation: the dispatch call executeTask makes on the validated
path, applied to the pre-dispatch state. -/
def dispatched (env : Env) (st : St) (taskId : Nat) (tb : String) (task : Task) :
    ExecutionResult × St :=
  dispatch env task st.nextExecId (preDispatch env st taskId tb task)

theorem finalizeFailure_executions (env : Env) (task : Task) (r : ExecutionResult) (st : St) :
    (finalizeFailure env task r st).executions = st.executions := by
  unfold finalizeFailure
  split
  · split
    · rw [sendNotification_executions]
      rfl
    · rfl
  · rfl

theorem finalizeFailure_webhooks (env : Env) (task : Task) (r : ExecutionResult) (st : St) :
    (finalizeFailure env task r st).webhooks = st.webhooks := by
  have hsw : ∀ s : St, (sendNotification task "failed" r s).webhooks = s.webhooks := by
    intro s
    unfold sendNotification
    split
    · rfl
    · split
      · rfl
      · split <;> rfl
  unfold finalizeFailure
  split
  · split
    · rw [hsw]
      rfl
    · rfl
  · rfl

theorem finalizeFailure_outbound_no_webhook (env : Env) (task : Task) (r : ExecutionResult)
    (st : St) (hweb : task.sourceWebhookId = none) :
    (finalizeFailure env task r st).outbound = st.outbound := by
  unfold finalizeFailure
  split
  · split
    · rw [sendNotification_no_webhook _ _ _ _ hweb]
      rfl
    · rfl
  · rfl

/-- Membership transport through the terminal record update: a record
with the addressed id becomes its terminally-updated version. -/
theorem recordTerminal_mem (env : Env) (k : Nat) (r : ExecutionResult) (st : St)
    (e : TaskExecution) (he : e ∈ st.executions) (hide : e.id = k) :
    ∃ e2 ∈ (recordTerminal env k r st).executions,
      e2.id = k ∧ e2.status = (if r.success then ExecStatus.success else .failed) ∧
      e2.error = r.error ∧ e2.duration = some env.durationMs := by
  unfold recordTerminal updateExecRow
  refine ⟨_, List.mem_map_of_mem _ he, ?_, ?_, ?_, ?_⟩ <;> simp [updAt, hide, terminalPatch]

/-- C3 (amended): when the dispatched handler returns a failure,
executeTask marks the execution record failed with the handler's error
and the measured duration, increments errorCount by one, and moves the
task to failed with a terminal statusReason when the new errorCount
reaches maxRetries (default 3, JavaScript-falsy) or back to pending with
an attempt statusReason otherwise; a failure notification message is
enqueued exactly when notifyOnFailure is set AND the task's source
webhook exists with outbound delivery enabled — with no source webhook
the notification is silently skipped. -/
theorem executeTask_handler_failure_bookkeeping
    (env : Env) (st : St) (taskId : Nat) (tb : String) (task : Task)
    (wid : Nat) (w : Webhook)
    (hfind : findTask st taskId = some task)
    (h1 : task.status ≠ .completed) (h2 : task.status ≠ .cancelled)
    (h3 : ¬(task.requiresHumanReview = true ∧ task.humanReviewedBy = none))
    (hval : validateTaskConfig env task = none)
    (hfault : env.dispatchFault = none)
    (hfail : (dispatched env st taskId tb task).1.success = false) :
    (executeTask env st taskId tb).1.success = false ∧
    (executeTask env st taskId tb).1.error = (dispatched env st taskId tb task).1.error ∧
    (executeTask env st taskId tb).1.duration = some env.durationMs ∧
    (∃ e ∈ (executeTask env st taskId tb).2.executions,
      e.id = st.nextExecId ∧ e.status = .failed ∧
      e.error = (dispatched env st taskId tb task).1.error ∧
      e.duration = some env.durationMs) ∧
    (∃ t ∈ (executeTask env st taskId tb).2.tasks,
      t.id = taskId ∧ t.errorCount = some (jsOrNat task.errorCount 0 + 1) ∧
      t.lastError = (dispatched env st taskId tb task).1.error ∧
      ((jsOrNat task.maxRetries 3 ≤ jsOrNat task.errorCount 0 + 1 ∧
        t.status = .failed ∧
        t.statusReason = some s!"Failed after {jsOrNat task.errorCount 0 + 1} attempts") ∨
       (jsOrNat task.errorCount 0 + 1 < jsOrNat task.maxRetries 3 ∧
        t.status = .pending ∧
        t.statusReason = some s!"Attempt {jsOrNat task.errorCount 0 + 1} failed, will retry"))) ∧
    (task.sourceWebhookId = none →
      (executeTask env st taskId tb).2.outbound = (dispatched env st taskId tb task).2.outbound) ∧
    (jsOrNat task.maxRetries 3 ≤ jsOrNat task.errorCount 0 + 1 →
     task.notifyOnFailure = true →
     task.sourceWebhookId = some wid →
     st.webhooks.find? (fun x => decide (x.id = wid)) = some w →
     w.outboundEnabled = true →
     ∃ mMsg, (executeTask env st taskId tb).2.outbound =
        (dispatched env st taskId tb task).2.outbound ++ [mMsg] ∧
        mMsg.messageType = "task_update" ∧ mMsg.webhookId = w.id ∧
        mMsg.userId = task.userId) := by
  obtain ⟨hmem, hid⟩ := findTask_mem_id st taskId task hfind
  have heq := executeTask_validated_eq env st taskId tb task hfind h1 h2 h3 hval
  rw [heq, afterValidation_no_fault env st taskId tb task hfault]
  obtain ⟨⟨f, hf, hfe⟩, hft, hfw⟩ :=
    dispatch_shape env task st.nextExecId (preDispatch env st taskId tb task)
  have hsnd : (afterDispatch env task st.nextExecId (dispatched env st taskId tb task)).2 =
      finalizeFailure env task (dispatched env st taskId tb task).1
        (recordTerminal env st.nextExecId (dispatched env st taskId tb task).1
          (dispatched env st taskId tb task).2) := by
    unfold afterDispatch
    rw [hfail]
    rfl
  have hfst : (afterDispatch env task st.nextExecId (dispatched env st taskId tb task)).1 =
      { (dispatched env st taskId tb task).1 with duration := some env.durationMs } := rfl
  refine ⟨?_, ?_, ?_, ?_, ?_, ?_, ?_⟩
  · show (afterDispatch env task st.nextExecId (dispatched env st taskId tb task)).1.success = false
    rw [hfst]
    exact hfail
  · rfl
  · rfl
  · -- the execution record is terminal with the handler's error
    show ∃ e ∈ (afterDispatch env task st.nextExecId (dispatched env st taskId tb task)).2.executions, _
    rw [hsnd, finalizeFailure_executions]
    have hrecmem : ∃ e ∈ (dispatched env st taskId tb task).2.executions,
        e.id = st.nextExecId := by
      show ∃ e ∈ (dispatch env task st.nextExecId (preDispatch env st taskId tb task)).2.executions, _
      rw [hfe]
      refine ⟨updAt st.nextExecId f (runningExec st taskId tb task),
        List.mem_map_of_mem _ ?_, ?_⟩
      · simp [preDispatch, withNewExec]
      · have h1' : (runningExec st taskId tb task).id = st.nextExecId := rfl
        simp [updAt, h1', (hf (runningExec st taskId tb task)).1]
    obtain ⟨e0, he0, hid0⟩ := hrecmem
    obtain ⟨e2, he2, hi2, hs2, her2, hd2⟩ := recordTerminal_mem env st.nextExecId
      (dispatched env st taskId tb task).1 (dispatched env st taskId tb task).2 e0 he0 hid0
    rw [hfail] at hs2
    simp only [Bool.false_eq_true, if_false] at hs2
    exact ⟨e2, he2, hi2, hs2, her2, hd2⟩
  · -- the task row: errorCount incremented, status per retry budget
    show ∃ t ∈ (afterDispatch env task st.nextExecId (dispatched env st taskId tb task)).2.tasks, _
    rw [hsnd]
    have hmem4 : inProgressPatch env task ∈
        (recordTerminal env st.nextExecId (dispatched env st taskId tb task).1
          (dispatched env st taskId tb task).2).tasks := by
      rw [recordTerminal_tasks]
      show inProgressPatch env task ∈
        (dispatch env task st.nextExecId (preDispatch env st taskId tb task)).2.tasks
      rw [hft]
      exact mem_updateTaskRow_of_mem (withNewExec st taskId tb task) taskId
        (inProgressPatch env) task hmem hid
    unfold finalizeFailure
    by_cases hle : jsOrNat task.maxRetries 3 ≤ jsOrNat task.errorCount 0 + 1
    · rw [if_pos hle]
      by_cases hnf : task.notifyOnFailure = true
      · rw [if_pos hnf, sendNotification_tasks]
        exact ⟨_, mem_updateTaskRow_of_mem _ task.id
          (failPatch env (dispatched env st taskId tb task).1 (jsOrNat task.errorCount 0 + 1))
          (inProgressPatch env task) hmem4 rfl, hid, rfl, rfl, Or.inl ⟨hle, rfl, rfl⟩⟩
      · rw [if_neg hnf]
        exact ⟨_, mem_updateTaskRow_of_mem _ task.id
          (failPatch env (dispatched env st taskId tb task).1 (jsOrNat task.errorCount 0 + 1))
          (inProgressPatch env task) hmem4 rfl, hid, rfl, rfl, Or.inl ⟨hle, rfl, rfl⟩⟩
    · rw [if_neg hle]
      exact ⟨_, mem_updateTaskRow_of_mem _ task.id
        (pendingPatch env (dispatched env st taskId tb task).1 (jsOrNat task.errorCount 0 + 1))
        (inProgressPatch env task) hmem4 rfl, hid, rfl, rfl,
        Or.inr ⟨Nat.lt_of_not_le hle, rfl, rfl⟩⟩
  · -- with no source webhook, no notification is enqueued
    intro hweb
    show (afterDispatch env task st.nextExecId (dispatched env st taskId tb task)).2.outbound = _
    rw [hsnd, finalizeFailure_outbound_no_webhook _ _ _ _ hweb, recordTerminal_outbound]
  · -- with notifyOnFailure and a usable webhook, exactly one failure
    -- notification is appended
    intro hle hnf hws hfindw hout
    show ∃ mMsg,
      (afterDispatch env task st.nextExecId (dispatched env st taskId tb task)).2.outbound =
        (dispatched env st taskId tb task).2.outbound ++ [mMsg] ∧
      mMsg.messageType = "task_update" ∧ mMsg.webhookId = w.id ∧ mMsg.userId = task.userId
    rw [hsnd]
    unfold finalizeFailure
    rw [if_pos hle, if_pos hnf]
    have hgw : (updateTaskRow
        (recordTerminal env st.nextExecId (dispatched env st taskId tb task).1
          (dispatched env st taskId tb task).2) task.id
        (failPatch env (dispatched env st taskId tb task).1
          (jsOrNat task.errorCount 0 + 1))).webhooks = st.webhooks := by
      rw [updateTaskRow_webhooks]
      show (dispatch env task st.nextExecId (preDispatch env st taskId tb task)).2.webhooks = _
      rw [hfw]
      rfl
    unfold sendNotification
    simp only [hws]
    rw [hgw]
    simp only [hfindw]
    rw [if_pos hout]
    exact ⟨_, rfl, rfl, rfl, rfl⟩

def envC3 : Env := { env0 with fetchApi := .resp 404 "Not Found" "nf" }

def taskC3 : Task :=
  { id := 5, userId := 7, title := "call an api", taskType := .apiCall, status := .pending,
    executionConfig := some { apiEndpoint := some "https://api.example.com/users" },
    errorCount := some 0, maxRetries := some 3, notifyOnFailure := true,
    sourceWebhookId := some 9 }

def stC3 : St :=
  { tasks := [taskC3], executions := [], outbound := [],
    webhooks := [{ id := 9, outboundEnabled := true }], nextExecId := 1 }

/-- Witness for C3 at a concrete api_call task whose transport returns
404: first attempt of three, so the task returns to pending. -/
theorem executeTask_handler_failure_bookkeeping_witness :
    findTask stC3 5 = some taskC3 ∧
    (dispatched envC3 stC3 5 "manual" taskC3).1.success = false ∧
    (executeTask envC3 stC3 5 "manual").1.success = false ∧
    (∃ e ∈ (executeTask envC3 stC3 5 "manual").2.executions,
      e.id = stC3.nextExecId ∧ e.status = .failed ∧
      e.error = (dispatched envC3 stC3 5 "manual" taskC3).1.error ∧
      e.duration = some envC3.durationMs) :=
  ⟨by decide, by decide,
   (executeTask_handler_failure_bookkeeping envC3 stC3 5 "manual" taskC3 9
      { id := 9, outboundEnabled := true } (by decide) (by decide) (by decide) (by decide)
      (by decide) rfl (by decide)).1,
   (executeTask_handler_failure_bookkeeping envC3 stC3 5 "manual" taskC3 9
      { id := 9, outboundEnabled := true } (by decide) (by decide) (by decide) (by decide)
      (by decide) rfl (by decide)).2.2.2.1⟩

def taskC3x : Task :=
  { id := 6, userId := 7, title := "last try", taskType := .apiCall, status := .pending,
    executionConfig := some { apiEndpoint := some "https://api.example.com/users" },
    errorCount := some 2, maxRetries := some 3, notifyOnFailure := true }

def stC3x : St :=
  { tasks := [taskC3x], executions := [], outbound := [], webhooks := [], nextExecId := 1 }

/-- Counterexample to C3 as stated: a task with notifyOnFailure = true but
no sourceWebhookId exhausts its retries (errorCount reaches maxRetries),
yet no failure notification is enqueued — the outbound queue stays
empty. -/
theorem executeTask_failure_notification_skipped_without_webhook :
    taskC3x.notifyOnFailure = true ∧
    (executeTask envC3 stC3x 6 "manual").1.success = false ∧
    (∃ t ∈ (executeTask envC3 stC3x 6 "manual").2.tasks,
      t.id = 6 ∧ t.status = .failed ∧ t.errorCount = some 3) ∧
    (executeTask envC3 stC3x 6 "manual").2.outbound = [] := by
  decide

-- ========================================
-- C4: NO DANGLING RUNNING RECORD
-- ========================================

theorem finalizeSuccess_executions (env : Env) (task : Task) (r : ExecutionResult) (st : St) :
    (finalizeSuccess env task r st).executions = st.executions := by
  unfold finalizeSuccess
  split
  · rw [sendNotification_executions]
    rfl
  · rfl

/-- The second component of afterDispatch, with the let/if structure
flattened. -/
theorem afterDispatch_snd (env : Env) (task : Task) (k : Nat) (pair : ExecutionResult × St) :
    (afterDispatch env task k pair).2 =
      if pair.1.success = true then
        finalizeSuccess env task pair.1 (recordTerminal env k pair.1 pair.2)
      else finalizeFailure env task pair.1 (recordTerminal env k pair.1 pair.2) := rfl

theorem afterDispatch_executions (env : Env) (task : Task) (k : Nat)
    (pair : ExecutionResult × St) :
    (afterDispatch env task k pair).2.executions =
      pair.2.executions.map (updAt k (terminalPatch env pair.1)) := by
  rw [afterDispatch_snd]
  by_cases hs : pair.1.success = true
  · rw [if_pos hs, finalizeSuccess_executions]
    rfl
  · rw [if_neg hs, finalizeFailure_executions]
    rfl

/-- Core of the no-dangling-running argument: after the id-preserving
session patch and a terminalising patch of the record with the fresh id,
any still-running record predates the call. -/
theorem terminal_after_maps (nid : Nat) (f g : TaskExecution → TaskExecution)
    (hfid : ∀ e, (f e).id = e.id)
    (hgterm : ∀ e, (g e).status ≠ .running)
    (base : List TaskExecution) (rec : TaskExecution) (hrecid : rec.id = nid)
    (hwf : ∀ e ∈ base, e.id < nid) :
    ∀ e ∈ ((base ++ [rec]).map (updAt nid f)).map (updAt nid g),
      e.status = .running → e ∈ base := by
  intro e he hrun
  obtain ⟨b, hb, rfl⟩ := List.mem_map.mp he
  obtain ⟨a, ha, rfl⟩ := List.mem_map.mp hb
  rcases List.mem_append.mp ha with ha2 | ha2
  · have hne : a.id ≠ nid := Nat.ne_of_lt (hwf a ha2)
    have h1 : updAt nid f a = a := by
      unfold updAt
      rw [if_neg hne]
    have h2 : updAt nid g a = a := by
      unfold updAt
      rw [if_neg hne]
    rw [h1, h2]
    exact ha2
  · exfalso
    have ha3 : a = rec := by simpa using ha2
    subst ha3
    have h1 : updAt nid f a = f a := by
      unfold updAt
      rw [if_pos hrecid]
    have hidfa : (f a).id = nid := by rw [hfid]; exact hrecid
    have h2 : updAt nid g (f a) = g (f a) := by
      unfold updAt
      rw [if_pos hidfa]
    rw [h1, h2] at hrun
    exact hgterm (f a) hrun

/-- Helper for C4: over all inputs, a record that is still running after
executeTask returns was already present before the call — the call never
leaves a record it created in the running state. -/
theorem executeTask_no_new_running (env : Env) (st : St) (taskId : Nat) (tb : String)
    (hwf : ∀ e ∈ st.executions, e.id < st.nextExecId) :
    ∀ e ∈ (executeTask env st taskId tb).2.executions,
      e.status = .running → e ∈ st.executions := by
  unfold executeTask
  split
  · exact fun e he _ => he
  · rename_i t2 hfind2
    split
    · exact fun e he _ => he
    · split
      · exact fun e he _ => he
      · split
        · exact fun e he _ => he
        · split
          · exact fun e he _ => he
          · unfold afterValidation
            split
            · rename_i msg hfd
              intro e he hrun
              have he2 : e ∈ ((st.executions ++ [runningExec st taskId tb t2]).map
                  (updAt st.nextExecId (fun x => x))).map
                  (updAt st.nextExecId (catchPatch env msg)) := by
                rw [map_updAt_id]
                exact he
              exact terminal_after_maps st.nextExecId (fun x => x) (catchPatch env msg)
                (fun _ => rfl) (fun x h => ExecStatus.noConfusion h)
                st.executions (runningExec st taskId tb t2) rfl hwf e he2 hrun
            · intro e he hrun
              obtain ⟨⟨f, hf, hfe⟩, _, _⟩ :=
                dispatch_shape env t2 st.nextExecId (preDispatch env st taskId tb t2)
              rw [afterDispatch_executions, hfe, preDispatch_executions] at he
              have hgterm : ∀ x : TaskExecution,
                  (terminalPatch env
                    (dispatch env t2 st.nextExecId (preDispatch env st taskId tb t2)).1
                    x).status ≠ .running := by
                intro x
                unfold terminalPatch
                dsimp only
                split <;> intro h <;> cases h
              exact terminal_after_maps st.nextExecId f _
                (fun x => (hf x).1) hgterm
                st.executions (runningExec st taskId tb t2) rfl hwf e he hrun

/-- C4: (a) no execution record created by a call to executeTask is ever
left with status running when the call returns — any still-running record
predates the call; (b) when an exception escapes the dispatched handler,
the top-level catch marks the created record failed with the exception
message and duration and returns a matching failure result. -/
theorem executeTask_execution_records_terminal
    (env : Env) (st : St) (taskId : Nat) (tb : String) (task : Task) (efault : String)
    (hwf : ∀ e ∈ st.executions, e.id < st.nextExecId) :
    (∀ e ∈ (executeTask env st taskId tb).2.executions,
      e.status = .running → e ∈ st.executions) ∧
    (findTask st taskId = some task →
     task.status ≠ .completed → task.status ≠ .cancelled →
     ¬(task.requiresHumanReview = true ∧ task.humanReviewedBy = none) →
     validateTaskConfig env task = none →
     env.dispatchFault = some efault →
     (executeTask env st taskId tb).1 =
       { success := false, error := some efault, duration := some env.durationMs } ∧
     ∃ e ∈ (executeTask env st taskId tb).2.executions,
       e.id = st.nextExecId ∧ e.status = .failed ∧ e.error = some efault ∧
       e.duration = some env.durationMs) := by
  refine ⟨executeTask_no_new_running env st taskId tb hwf, ?_⟩
  intro hfind h1 h2 h3 hval hfd
  have heq2 : executeTask env st taskId tb =
      ({ success := false, error := some efault, duration := some env.durationMs },
       recordCatch env st.nextExecId efault (preDispatch env st taskId tb task)) := by
    rw [executeTask_validated_eq env st taskId tb task hfind h1 h2 h3 hval]
    unfold afterValidation
    rw [hfd]
  rw [heq2]
  refine ⟨rfl, ?_⟩
  show ∃ e ∈ (recordCatch env st.nextExecId efault
      (preDispatch env st taskId tb task)).executions, _
  unfold recordCatch updateExecRow
  refine ⟨updAt st.nextExecId (catchPatch env efault) (runningExec st taskId tb task),
    List.mem_map_of_mem (updAt st.nextExecId (catchPatch env efault)) ?_, ?_, ?_, ?_, ?_⟩
  · show runningExec st taskId tb task ∈ (preDispatch env st taskId tb task).executions
    rw [preDispatch_executions]
    simp
  all_goals simp [updAt, catchPatch, runningExec]

def envC4 : Env := { env0 with dispatchFault := some "boom" }

def taskC4 : Task :=
  { id := 7, userId := 7, title := "anything", taskType := .custom, status := .pending }

def stC4 : St :=
  { tasks := [taskC4],
    executions := [{ id := 1, taskId := 99, triggeredBy := "manual",
                     status := .running, attemptNumber := 1 }],
    outbound := [], webhooks := [], nextExecId := 2 }

/-- Witness for C4: a handler-escaping exception at a concrete task; the
pre-existing running record of another call is the only running record
left, and the created record is marked failed with the exception
message. -/
theorem executeTask_execution_records_terminal_witness :
    (∀ e ∈ stC4.executions, e.id < stC4.nextExecId) ∧
    (∀ e ∈ (executeTask envC4 stC4 7 "manual").2.executions,
      e.status = .running → e ∈ stC4.executions) ∧
    (executeTask envC4 stC4 7 "manual").1 =
      { success := false, error := some "boom", duration := some envC4.durationMs } :=
  ⟨by decide,
   (executeTask_execution_records_terminal envC4 stC4 7 "manual" taskC4 "boom"
      (by decide)).1,
   ((executeTask_execution_records_terminal envC4 stC4 7 "manual" taskC4 "boom"
      (by decide)).2 (by decide) (by decide) (by decide) (by decide) (by decide) rfl).1⟩

-- ========================================
-- C5: SESSION TEARDOWN IS NOT GUARANTEED
-- ========================================

def envC5 : Env := { env0 with runStep := fun _ _ => .error "Navigation failed" }

def taskC5 : Task :=
  { id := 8, userId := 7, title := "browse", taskType := .browserAutomation, status := .pending,
    executionConfig := some { automationSteps := some [{ stepType := "navigate" }] } }

def stC5 : St :=
  { tasks := [taskC5], executions := [], outbound := [], webhooks := [], nextExecId := 1 }

/-- C5 at the failing input: a browser-automation task whose single step
(without continueOnError) throws.  The remote session is created but
stagehand.close() is never reached — the session is leaked, refuting the
finally-equivalent teardown; on the all-steps-succeed path the same task
closes the session exactly once. -/
theorem executeBrowserAutomation_session_leak_on_step_throw :
    (executeTask envC5 stC5 8 "manual").2.sessionsCreated = 1 ∧
    (executeTask envC5 stC5 8 "manual").2.sessionsClosed = 0 ∧
    (executeTask envC5 stC5 8 "manual").1.success = false ∧
    (executeTask envC5 stC5 8 "manual").1.error = some "Navigation failed" ∧
    (executeTask env0 stC5 8 "manual").2.sessionsCreated = 1 ∧
    (executeTask env0 stC5 8 "manual").2.sessionsClosed = 1 := by
  decide

-- ========================================
-- C9: SCREENSHOT FAILURES FAIL THE STEP
-- ========================================

def envC9 : Env := { env0 with takeScreenshot := fun _ => .error "Screenshot failed" }

def stepC9 : AutomationStep := { stepType := "navigate", screenshot := true }

def taskC9 : Task :=
  { id := 9, userId := 7, title := "browse and shoot", taskType := .browserAutomation,
    status := .pending, executionConfig := some { automationSteps := some [stepC9] } }

def stC9 : St :=
  { tasks := [taskC9], executions := [], outbound := [], webhooks := [], nextExecId := 1 }

/-- Counterexample to C9 as stated: the single step succeeds, only the
screenshot capture throws, yet the handler fails with the screenshot
error (and the session is additionally leaked) instead of recording the
step as a success and proceeding normally. -/
theorem screenshot_failure_fails_automation_counterexample :
    envC9.runStep 0 stepC9 = .ok "done" ∧
    (executeBrowserAutomation envC9 taskC9 1 stC9).1.success = false ∧
    (executeBrowserAutomation envC9 taskC9 1 stC9).1.error = some "Screenshot failed" ∧
    (executeBrowserAutomation envC9 taskC9 1 stC9).2.sessionsClosed = 0 :=
  ⟨rfl, by decide, by decide, by decide⟩

/-- C9 (amended): a screenshot-capture failure is handled like a failure
of the step itself, because the capture sits inside the step's try: the
step's own result has already been pushed; with continueOnError the loop
additionally records the screenshot error and proceeds to the remaining
steps (the screenshot is not collected), and without continueOnError the
loop aborts, propagating the screenshot error. -/
theorem runSteps_screenshot_failure_behavior
    (env : Env) (k : Nat) (s : AutomationStep) (rest : List AutomationStep)
    (results : List StepEntry) (shots : List String) (r e : String)
    (hrun : env.runStep k s = .ok r) (hshot : s.screenshot = true)
    (hfailshot : env.takeScreenshot k = .error e) :
    runSteps env k (s :: rest) results shots =
      if s.continueOnError then
        runSteps env (k + 1) rest (results ++ [.ok r, .err e]) shots
      else .error e := by
  conv_lhs => unfold runSteps
  simp only [hrun, hshot, hfailshot, if_true]

/-- Witness for the amended C9 at a concrete aborting configuration. -/
theorem runSteps_screenshot_failure_behavior_witness :
    envC9.runStep 0 stepC9 = .ok "done" ∧
    stepC9.screenshot = true ∧
    envC9.takeScreenshot 0 = .error "Screenshot failed" ∧
    runSteps envC9 0 [stepC9] [] [] =
      (if stepC9.continueOnError then
        runSteps envC9 1 [] ([] ++ [.ok "done", .err "Screenshot failed"]) []
      else .error "Screenshot failed") :=
  ⟨rfl, rfl, rfl,
   runSteps_screenshot_failure_behavior envC9 0 stepC9 [] [] [] "done" "Screenshot failed"
     rfl rfl rfl⟩

-- ========================================
-- C7: SCHEDULER QUERY
-- ========================================

theorem runBatch_counts (env : Env) (l : List Task) (st : St) :
    (runBatch env l st).1 + (runBatch env l st).2.1 = l.length := by
  induction l generalizing st with
  | nil => rfl
  | cons t rest ih =>
    unfold runBatch
    by_cases hs : (executeTask env st t.id "scheduled").1.success = true
    · rw [if_pos hs]
      have := ih (executeTask env st t.id "scheduled").2
      simpa using by omega
    · rw [if_neg hs]
      have := ih (executeTask env st t.id "scheduled").2
      simpa using by omega

/-- C7: processPendingTasks selects at most 10 tasks, each satisfying the
eligibility predicate (bot-assigned, no human review, pending/queued, due),
runs the batch sequentially through executeTask(id, "scheduled"), and the
returned counts satisfy processed = number selected = success + failed. -/
theorem processPendingTasks_batch_counts (env : Env) (st : St) :
    (processPendingTasks env st).1.processed =
      ((st.tasks.filter (pendingPredicate env.now)).take 10).length ∧
    (processPendingTasks env st).1.processed ≤ 10 ∧
    (processPendingTasks env st).1.processed =
      (processPendingTasks env st).1.success + (processPendingTasks env st).1.failed ∧
    (∀ t ∈ (st.tasks.filter (pendingPredicate env.now)).take 10,
      pendingPredicate env.now t = true) ∧
    (processPendingTasks env st).1.success =
      (runBatch env ((st.tasks.filter (pendingPredicate env.now)).take 10) st).1 ∧
    (processPendingTasks env st).2 =
      (runBatch env ((st.tasks.filter (pendingPredicate env.now)).take 10) st).2.2 := by
  refine ⟨rfl, ?_, ?_, ?_, rfl, rfl⟩
  · show ((st.tasks.filter (pendingPredicate env.now)).take 10).length ≤ 10
    exact List.length_take_le 10 (st.tasks.filter (pendingPredicate env.now))
  · exact (runBatch_counts env ((st.tasks.filter (pendingPredicate env.now)).take 10) st).symm
  · intro t ht
    exact List.of_mem_filter (List.take_subset 10 _ ht)

def taskC7a : Task :=
  { id := 11, userId := 7, title := "due", taskType := .custom, status := .pending,
    assignedToBot := true }

def taskC7b : Task :=
  { id := 12, userId := 7, title := "future", taskType := .custom, status := .pending,
    assignedToBot := true, scheduledFor := some 9999 }

def taskC7c : Task :=
  { id := 13, userId := 7, title := "manual-only", taskType := .custom, status := .pending }

def stC7 : St :=
  { tasks := [taskC7a, taskC7b, taskC7c], executions := [], outbound := [],
    webhooks := [], nextExecId := 1 }

/-- Witness for C7: of three tasks only the due bot-assigned one is
selected; it succeeds, so the counts are {processed 1, success 1,
failed 0}. -/
theorem processPendingTasks_batch_counts_witness :
    (stC7.tasks.filter (pendingPredicate env0.now)).take 10 = [taskC7a] ∧
    (∀ t ∈ (stC7.tasks.filter (pendingPredicate env0.now)).take 10,
      pendingPredicate env0.now t = true) ∧
    (processPendingTasks env0 stC7).1 =
      { processed := 1, success := 1, failed := 0 } :=
  ⟨by decide,
   (processPendingTasks_batch_counts env0 stC7).2.2.2.1,
   by decide⟩

-- ========================================
-- C8: CIRCUIT BREAKER STATE MACHINE
-- ========================================

theorem cb_closed_absorb (cfg : CBConfig) (t : Nat) :
    ∀ (k : Nat) (b : CircuitBreaker), b.state = .closed →
      (cbSuccessIter cfg t k b).state = .closed := by
  intro k
  induction k with
  | zero =>
    intro b hb
    simpa [cbSuccessIter] using hb
  | succ k ih =>
    intro b hb
    unfold cbSuccessIter
    rw [Function.iterate_succ_apply]
    exact ih ((cbExecute cfg t true b).2) (by simp [cbExecute, hb])

theorem cb_fail_streak (cfg : CBConfig) (t : Nat) :
    ∀ (k c : Nat) (b : CircuitBreaker), b.state = .closed → b.failureCount = c →
      c + k = cfg.failureThreshold → 0 < k →
      (cbFailIter cfg t k b).state = .opened ∧
      (cbFailIter cfg t k b).lastTransition = t := by
  intro k
  induction k with
  | zero =>
    intro c b _ _ _ hk
    exact absurd hk (Nat.lt_irrefl 0)
  | succ k ih =>
    intro c b hb hfc hsum _
    unfold cbFailIter
    rw [Function.iterate_succ_apply]
    by_cases hF : cfg.failureThreshold ≤ c + 1
    · have hk0 : k = 0 := by omega
      subst hk0
      constructor <;> simp [Function.iterate_zero, cbExecute, hb, hfc, hF]
    · have h1 : ((cbExecute cfg t false b).2).state = .closed := by
        simp [cbExecute, hb, hfc, hF]
      have h2 : ((cbExecute cfg t false b).2).failureCount = c + 1 := by
        simp [cbExecute, hb, hfc, hF]
      exact ih (c + 1) ((cbExecute cfg t false b).2) h1 h2 (by omega) (by omega)

theorem cb_success_streak (cfg : CBConfig) (t : Nat) :
    ∀ (k c : Nat) (b : CircuitBreaker), b.state = .halfOpen → b.successCount = c →
      c + k = cfg.successThreshold → 0 < k →
      (cbSuccessIter cfg t k b).state = .closed := by
  intro k
  induction k with
  | zero =>
    intro c b _ _ _ hk
    exact absurd hk (Nat.lt_irrefl 0)
  | succ k ih =>
    intro c b hb hsc hsum _
    unfold cbSuccessIter
    rw [Function.iterate_succ_apply]
    by_cases hS : cfg.successThreshold ≤ c + 1
    · have hstate : ((cbExecute cfg t true b).2).state = .closed := by
        simp [cbExecute, cbHalfOpenCall, hb, hsc, hS]
      exact cb_closed_absorb cfg t k ((cbExecute cfg t true b).2) hstate
    · have h1 : ((cbExecute cfg t true b).2).state = .halfOpen := by
        simp [cbExecute, cbHalfOpenCall, hb, hsc, hS]
      have h2 : ((cbExecute cfg t true b).2).successCount = c + 1 := by
        simp [cbExecute, cbHalfOpenCall, hb, hsc, hS]
      exact ih (c + 1) ((cbExecute cfg t true b).2) h1 h2 (by omega) (by omega)

/-- C8 (spec-modelled): from a fresh breaker, F consecutive failures open
the circuit recording the failure time; while the reset timeout has not
elapsed every call is rejected without invoking the operation and the
breaker is unchanged; once it has elapsed the next call is let through as
a half-open trial; from half-open, S consecutive successes close the
breaker, while a single half-open failure reopens it and restarts the
reset-timeout clock. -/
theorem circuitBreaker_state_machine
    (cfg : CBConfig) (t0 tF t1 t2 : Nat) (op : Bool) (b : CircuitBreaker)
    (hF : 0 < cfg.failureThreshold) (hS : 0 < cfg.successThreshold)
    (h1 : t1 < tF + cfg.resetTimeoutMs) (h2 : tF + cfg.resetTimeoutMs ≤ t2)
    (hb : b.state = .halfOpen) (hbc : b.successCount = 0) :
    (cbFailIter cfg tF cfg.failureThreshold (freshBreaker t0)).state = .opened ∧
    (cbFailIter cfg tF cfg.failureThreshold (freshBreaker t0)).lastTransition = tF ∧
    cbExecute cfg t1 op (cbFailIter cfg tF cfg.failureThreshold (freshBreaker t0)) =
      (.rejected, cbFailIter cfg tF cfg.failureThreshold (freshBreaker t0)) ∧
    (cbExecute cfg t2 op (cbFailIter cfg tF cfg.failureThreshold (freshBreaker t0))).1 =
      .ran op ∧
    (cbSuccessIter cfg t2 cfg.successThreshold b).state = .closed ∧
    (cbExecute cfg t2 false b).2.state = .opened ∧
    (cbExecute cfg t2 false b).2.lastTransition = t2 := by
  obtain ⟨ho, hlt⟩ := cb_fail_streak cfg tF cfg.failureThreshold 0 (freshBreaker t0)
    rfl rfl (by omega) hF
  have hn1 : ¬ ((cbFailIter cfg tF cfg.failureThreshold (freshBreaker t0)).lastTransition +
      cfg.resetTimeoutMs ≤ t1) := by
    rw [hlt]
    omega
  have h2' : (cbFailIter cfg tF cfg.failureThreshold (freshBreaker t0)).lastTransition +
      cfg.resetTimeoutMs ≤ t2 := by
    rw [hlt]
    omega
  refine ⟨ho, hlt, ?_, ?_, ?_, ?_, ?_⟩
  · simp [cbExecute, ho, hn1]
  · cases op with
    | false => simp [cbExecute, cbHalfOpenCall, ho, h2']
    | true =>
      by_cases hS1 : cfg.successThreshold ≤ 0 + 1 <;>
        simp [cbExecute, cbHalfOpenCall, ho, h2', hS1]
  · exact cb_success_streak cfg t2 cfg.successThreshold 0 b hb hbc (by omega) hS
  · simp [cbExecute, cbHalfOpenCall, hb]
  · simp [cbExecute, cbHalfOpenCall, hb]

def cfgC8 : CBConfig := { failureThreshold := 3, resetTimeoutMs := 1000, successThreshold := 2 }

def bC8 : CircuitBreaker :=
  { state := .halfOpen, failureCount := 0, successCount := 0, lastTransition := 1000 }

/-- Witness for C8 with threshold 3, reset timeout 1000 ms and success
threshold 2. -/
theorem circuitBreaker_state_machine_witness :
    (0 < cfgC8.failureThreshold ∧ 0 < cfgC8.successThreshold ∧
     500 < 0 + cfgC8.resetTimeoutMs ∧ 0 + cfgC8.resetTimeoutMs ≤ 1000 ∧
     bC8.state = .halfOpen ∧ bC8.successCount = 0) ∧
    (cbFailIter cfgC8 0 cfgC8.failureThreshold (freshBreaker 0)).state = .opened ∧
    cbExecute cfgC8 500 true (cbFailIter cfgC8 0 cfgC8.failureThreshold (freshBreaker 0)) =
      (.rejected, cbFailIter cfgC8 0 cfgC8.failureThreshold (freshBreaker 0)) ∧
    (cbSuccessIter cfgC8 1000 cfgC8.successThreshold bC8).state = .closed :=
  ⟨by decide,
   (circuitBreaker_state_machine cfgC8 0 0 500 1000 true bC8 (by decide) (by decide)
      (by decide) (by decide) (by decide) (by decide)).1,
   (circuitBreaker_state_machine cfgC8 0 0 500 1000 true bC8 (by decide) (by decide)
      (by decide) (by decide) (by decide) (by decide)).2.2.1,
   (circuitBreaker_state_machine cfgC8 0 0 500 1000 true bC8 (by decide) (by decide)
      (by decide) (by decide) (by decide) (by decide)).2.2.2.2.1⟩

end BottleneckBots
